import Mathlib

/-!
# Verification of the student record service (`app.py`)

A shallow embedding of the FastAPI + MongoDB student CRUD service.
The MongoDB collection `db["students"]` is modelled as a `List StudentDoc`
in natural (insertion) order; every stored `_id` is a string, because the
service inserts `jsonable_encoder(student)` which serializes the `ObjectId`
as a string.  Each endpoint handler is translated into a pure function from
the store (and the request data) to a response together with the new store.
Floats appear only as the `gpa` field; every float value is represented by
its exact rational value, and the comparison `gpa <= 4.0` on floats agrees
with the rational comparison because `4.0` is exactly representable.
-/

/-- A document of the `students` collection, as produced by
`jsonable_encoder(StudentModel)`: the `_id` is serialized as a string. -/
structure StudentDoc where
  id : String
  name : String
  email : String
  course : String
  gpa : ℚ
deriving DecidableEq, Repr

/-- `collection.find_one({"_id": id})`: the first document in natural order
whose `_id` equals the supplied string, compared as raw strings. -/
def find_one : List StudentDoc → String → Option StudentDoc
  | [], _ => none
  | d :: rest, id => if d.id = id then some d else find_one rest id

/-- `collection.insert_one(doc)`: appends the document and returns its
`inserted_id`; a duplicate `_id` violates the unique index and raises. -/
def insert_one (store : List StudentDoc) (doc : StudentDoc) :
    Except String (String × List StudentDoc) :=
  if (find_one store doc.id).isSome then
    Except.error "E11000 duplicate key error"
  else
    Except.ok (doc.id, store ++ [doc])

/-- An `HTTPException` as raised by the handlers: a status code and a detail
message. -/
structure HttpError where
  status : Nat
  detail : String
deriving DecidableEq, Repr

/-- The detail string `f"Student {id} not found"` used by every 404. -/
def notFoundMsg (id : String) : String := s!"Student {id} not found"

/-- Character class used by `ObjectId.is_valid` on a 24-character string. -/
def hexDigit (c : Char) : Bool :=
  c.isDigit || (('a' ≤ c && c ≤ 'f') || ('A' ≤ c && c ≤ 'F'))

/-- `ObjectId.is_valid(v)` for a string argument: 24 hexadecimal characters. -/
def objectIdValid (s : String) : Bool :=
  s.length == 24 && s.toList.all hexDigit

/-- `str(ObjectId(s))`: the canonical (lowercase) hex spelling of the id. -/
def objectIdStr (s : String) : String := ⟨s.toList.map Char.toLower⟩

/-- Modelled from the spec: `EmailStr` is a third-party pydantic validator
not part of this repository; the spec only pins down that an email lacking
an `@`-structured form is rejected. -/
def emailValid (s : String) : Bool := s.toList.contains '@'

/-- The JSON body of a create request as pydantic sees it: each field of
`StudentModel` is either absent or present.  The `id` field is populated
from a client-supplied `_id` (its alias) or `id` key when one is present;
pydantic v1 with `allow_population_by_field_name = True` accepts both. -/
structure RawStudentInput where
  id : Option String
  name : Option String
  email : Option String
  course : Option String
  gpa : Option ℚ
deriving DecidableEq, Repr

/-- Pydantic validation of `StudentModel` applied to a request body.
`genId` is the fresh `ObjectId` string produced by `default_factory=PyObjectId`,
used only when the body carries no `_id`/`id` key; a present value goes
through `PyObjectId.validate`.  `name`, `email`, `course`, `gpa` are
required (`Field(...)`), `email` must be a valid email and `gpa` satisfies
`le=4.0`.  The result is the serialized document (`jsonable_encoder`). -/
def parseStudentModel (genId : String) (raw : RawStudentInput) :
    Except String StudentDoc :=
  let idv : Except String String :=
    match raw.id with
    | some v => if objectIdValid v then Except.ok (objectIdStr v)
                else Except.error "Invalid objectid"
    | none => Except.ok genId
  match idv, raw.name, raw.email, raw.course, raw.gpa with
  | Except.ok i, some n, some e, some c, some g =>
    if emailValid e then
      if g ≤ 4 then Except.ok ⟨i, n, e, c, g⟩
      else Except.error "ensure this value is less than or equal to 4.0"
    else Except.error "value is not a valid email address"
  | Except.error msg, _, _, _, _ => Except.error msg
  | _, _, _, _, _ => Except.error "field required"

/-- Body of `create_student` once validation has produced `student`:
serialize, `insert_one`, re-read by the inserted id, answer 201 with the
re-read document (which is `None`, hence `none`, if the re-read misses). -/
def create_student (store : List StudentDoc) (student : StudentDoc) :
    Except String (Nat × Option StudentDoc) × List StudentDoc :=
  match insert_one store student with
  | Except.error e => (Except.error e, store)
  | Except.ok (inserted_id, store') =>
    (Except.ok (201, find_one store' inserted_id), store')

/-- Outcome of a `POST /` request. -/
inductive CreateResult where
  /-- 422: the body failed `StudentModel` validation; nothing was written. -/
  | validationError (msg : String)
  /-- an exception escaped the handler (e.g. duplicate key). -/
  | serverError (msg : String)
  /-- 201 with the re-read document as the JSON body. -/
  | created (body : Option StudentDoc)
deriving DecidableEq, Repr

/-- The full `POST /` endpoint: FastAPI validates the body against
`StudentModel` (422 on failure, before the handler runs), then the handler
`create_student` executes. -/
def post_create (store : List StudentDoc) (genId : String)
    (raw : RawStudentInput) : CreateResult × List StudentDoc :=
  match parseStudentModel genId raw with
  | Except.error msg => (CreateResult.validationError msg, store)
  | Except.ok m =>
    match create_student store m with
    | (Except.error e, store') => (CreateResult.serverError e, store')
    | (Except.ok (_, body), store') => (CreateResult.created body, store')

/-- `GET /` (`list_students`): `find().to_list(1000)` — the first 1000
documents in natural order, no filter. -/
def list_students (store : List StudentDoc) : List StudentDoc :=
  store.take 1000

/-- `GET /{id}` (`show_student`): `find_one({"_id": id})` with the path
string used exactly as supplied; 404 when no document matches. -/
def show_student (store : List StudentDoc) (id : String) :
    Except HttpError StudentDoc :=
  match find_one store id with
  | some student => Except.ok student
  | none => Except.error ⟨404, notFoundMsg id⟩

/-- `UpdateStudentModel`: every field optional, no bound on `gpa`.
Pydantic v1 gives each `Optional` field the default `None`, so a field
absent from the request body and a field explicitly sent as `null` are
both represented as `none` here. -/
structure UpdateStudentModel where
  name : Option String
  email : Option String
  course : Option String
  gpa : Option ℚ
deriving DecidableEq, Repr

/-- Pydantic validation of `UpdateStudentModel`: only `email`, when
present, is constrained (`EmailStr`); `gpa` has no bound. -/
def parseUpdateStudentModel (raw : UpdateStudentModel) :
    Except String UpdateStudentModel :=
  match raw.email with
  | some e => if emailValid e then Except.ok raw
              else Except.error "value is not a valid email address"
  | none => Except.ok raw

/-- A value in the `$set` document: the string fields or the float field. -/
inductive FieldVal where
  | str (s : String)
  | num (q : ℚ)
deriving DecidableEq, Repr

/-- `student.dict()`: all four keys, absent fields carrying `None`. -/
def UpdateStudentModel.dict (p : UpdateStudentModel) :
    List (String × Option FieldVal) :=
  [("name", p.name.map FieldVal.str), ("email", p.email.map FieldVal.str),
   ("course", p.course.map FieldVal.str), ("gpa", p.gpa.map FieldVal.num)]

/-- `{k: v for k, v in student.dict().items() if v is not None}`. -/
def filterNonNull (d : List (String × Option FieldVal)) :
    List (String × FieldVal) :=
  d.filterMap (fun kv => kv.2.map (fun v => (kv.1, v)))

/-- One `$set` assignment applied to a document. -/
def setField (doc : StudentDoc) (kv : String × FieldVal) : StudentDoc :=
  match kv with
  | ("name", FieldVal.str s) => { doc with name := s }
  | ("email", FieldVal.str s) => { doc with email := s }
  | ("course", FieldVal.str s) => { doc with course := s }
  | ("gpa", FieldVal.num q) => { doc with gpa := q }
  | _ => doc

/-- A whole `$set` document applied to a document. -/
def applySet (doc : StudentDoc) (s : List (String × FieldVal)) : StudentDoc :=
  s.foldl setField doc

/-- The effect of `update_student`'s filtered patch on one document. -/
def applyPatch (doc : StudentDoc) (p : UpdateStudentModel) : StudentDoc :=
  applySet doc (filterNonNull p.dict)

/-- `collection.update_one({"_id": id}, {"$set": s})`: apply `s` to the
first matching document; `modified_count` is 1 exactly when a match exists
and the `$set` actually changed it. -/
def update_one (store : List StudentDoc) (id : String)
    (s : List (String × FieldVal)) : Nat × List StudentDoc :=
  match store with
  | [] => (0, [])
  | d :: rest =>
    if d.id = id then
      let d' := applySet d s
      if d' = d then (0, d :: rest) else (1, d' :: rest)
    else
      let (n, rest') := update_one rest id s
      (n, d :: rest')

/-- `PUT /{id}` (`update_student`): filter the null-valued patch fields;
when at least one assignment remains, `update_one` and, if it modified a
document, return the re-read document; otherwise fall through to a plain
`find_one` on the id, 404 when that also misses. -/
def update_student (store : List StudentDoc) (id : String)
    (patch : UpdateStudentModel) :
    Except HttpError StudentDoc × List StudentDoc :=
  let student := filterNonNull patch.dict
  if student.length ≥ 1 then
    let (modified, store') := update_one store id student
    if modified = 1 then
      match find_one store' id with
      | some updated => (Except.ok updated, store')
      | none =>
        match find_one store' id with
        | some existing => (Except.ok existing, store')
        | none => (Except.error ⟨404, notFoundMsg id⟩, store')
    else
      match find_one store' id with
      | some existing => (Except.ok existing, store')
      | none => (Except.error ⟨404, notFoundMsg id⟩, store')
  else
    match find_one store id with
    | some existing => (Except.ok existing, store)
    | none => (Except.error ⟨404, notFoundMsg id⟩, store)

/-- `collection.delete_one({"_id": id})`: remove the first matching
document; `deleted_count` is 1 exactly when a match existed. -/
def delete_one (store : List StudentDoc) (id : String) :
    Nat × List StudentDoc :=
  match store with
  | [] => (0, [])
  | d :: rest =>
    if d.id = id then (1, rest)
    else
      let (n, rest') := delete_one rest id
      (n, d :: rest')

/-- `DELETE /{id}` (`delete_student`): 204 with an empty body when exactly
one document was deleted, 404 otherwise.  The success payload is the
status code together with the (empty) body. -/
def delete_student (store : List StudentDoc) (id : String) :
    Except HttpError (Nat × String) × List StudentDoc :=
  let (deleted, store') := delete_one store id
  if deleted = 1 then (Except.ok (204, ""), store')
  else (Except.error ⟨404, notFoundMsg id⟩, store')

/-! ## Helper lemmas about the store primitives -/

theorem setField_id (doc : StudentDoc) (kv : String × FieldVal) :
    (setField doc kv).id = doc.id := by
  unfold setField
  split <;> rfl

theorem applySet_id (s : List (String × FieldVal)) (doc : StudentDoc) :
    (applySet doc s).id = doc.id := by
  induction s generalizing doc with
  | nil => rfl
  | cons kv rest ih =>
    show (applySet (setField doc kv) rest).id = doc.id
    rw [ih, setField_id]

theorem applyPatch_id (doc : StudentDoc) (p : UpdateStudentModel) :
    (applyPatch doc p).id = doc.id :=
  applySet_id _ _

theorem find_one_mem {store : List StudentDoc} {id : String} {d : StudentDoc}
    (h : find_one store id = some d) : d ∈ store ∧ d.id = id := by
  induction store with
  | nil => simp [find_one] at h
  | cons a rest ih =>
    rw [find_one] at h
    by_cases ha : a.id = id
    · rw [if_pos ha] at h
      injection h with h
      subst h
      exact ⟨List.mem_cons_self a rest, ha⟩
    · rw [if_neg ha] at h
      obtain ⟨hm, hid⟩ := ih h
      exact ⟨List.mem_cons_of_mem a hm, hid⟩

theorem find_one_append_of_none {s₁ : List StudentDoc} (s₂ : List StudentDoc)
    {id : String} (h : find_one s₁ id = none) :
    find_one (s₁ ++ s₂) id = find_one s₂ id := by
  induction s₁ with
  | nil => rfl
  | cons a rest ih =>
    rw [find_one] at h
    by_cases ha : a.id = id
    · rw [if_pos ha] at h
      cases h
    · rw [if_neg ha] at h
      show find_one (a :: (rest ++ s₂)) id = find_one s₂ id
      rw [find_one, if_neg ha]
      exact ih h

theorem update_one_of_none {store : List StudentDoc} {id : String}
    (s : List (String × FieldVal)) (h : find_one store id = none) :
    update_one store id s = (0, store) := by
  induction store with
  | nil => rfl
  | cons d rest ih =>
    rw [find_one] at h
    by_cases hd : d.id = id
    · rw [if_pos hd] at h
      cases h
    · rw [if_neg hd] at h
      rw [update_one, if_neg hd, ih h]

theorem update_one_snd_of_zero {store : List StudentDoc} {id : String}
    {s : List (String × FieldVal)} (h : (update_one store id s).1 = 0) :
    (update_one store id s).2 = store := by
  induction store with
  | nil => rfl
  | cons d rest ih =>
    rw [update_one] at h ⊢
    by_cases hd : d.id = id
    · rw [if_pos hd] at h ⊢
      by_cases he : applySet d s = d
      · rw [if_pos he]
      · rw [if_neg he] at h
        cases h
    · rw [if_neg hd] at h ⊢
      simp only at h ⊢
      rw [ih h]

theorem update_one_find_some {store : List StudentDoc} {id : String}
    (s : List (String × FieldVal)) {doc : StudentDoc}
    (h : find_one store id = some doc) :
    find_one (update_one store id s).2 id = some (applySet doc s) := by
  induction store with
  | nil => simp [find_one] at h
  | cons d rest ih =>
    rw [find_one] at h
    by_cases hd : d.id = id
    · rw [if_pos hd] at h
      cases h
      rw [update_one, if_pos hd]
      by_cases he : applySet doc s = doc
      · rw [if_pos he, he]
        show find_one (doc :: rest) id = some doc
        rw [find_one, if_pos hd]
      · rw [if_neg he]
        show find_one (applySet doc s :: rest) id = some (applySet doc s)
        rw [find_one, if_pos (by rw [applySet_id]; exact hd)]
    · rw [if_neg hd] at h
      rw [update_one, if_neg hd]
      simp only
      show find_one (d :: (update_one rest id s).2) id = some (applySet doc s)
      rw [find_one, if_neg hd]
      exact ih h

theorem update_one_fst_of_none {store : List StudentDoc} {id : String}
    {s : List (String × FieldVal)} (h : find_one store id = none) :
    (update_one store id s).1 = 0 := by
  rw [update_one_of_none s h]

theorem delete_one_fst {store : List StudentDoc} {id : String} :
    (delete_one store id).1 = 0 ∨ (delete_one store id).1 = 1 := by
  induction store with
  | nil => exact Or.inl rfl
  | cons d rest ih =>
    rw [delete_one]
    by_cases hd : d.id = id
    · rw [if_pos hd]
      exact Or.inr rfl
    · rw [if_neg hd]
      exact ih

theorem delete_one_fst_zero_iff {store : List StudentDoc} {id : String} :
    (delete_one store id).1 = 0 ↔ find_one store id = none := by
  induction store with
  | nil => simp [delete_one, find_one]
  | cons d rest ih =>
    rw [delete_one, find_one]
    by_cases hd : d.id = id
    · rw [if_pos hd, if_pos hd]
      simp
    · rw [if_neg hd, if_neg hd]
      simpa using ih

/-- Both branches of `update_student` collapse to a single `find_one` on the
post-update store: when at least one assignment is present, the nested
`modified_count` test never changes which document is returned. -/
theorem update_student_eq (store : List StudentDoc) (id : String)
    (patch : UpdateStudentModel) :
    update_student store id patch =
      if (filterNonNull patch.dict).length ≥ 1 then
        match find_one (update_one store id (filterNonNull patch.dict)).2 id with
        | some x => (Except.ok x, (update_one store id (filterNonNull patch.dict)).2)
        | none => (Except.error ⟨404, notFoundMsg id⟩,
                   (update_one store id (filterNonNull patch.dict)).2)
      else
        match find_one store id with
        | some x => (Except.ok x, store)
        | none => (Except.error ⟨404, notFoundMsg id⟩, store) := by
  unfold update_student
  rcases hu : update_one store id (filterNonNull patch.dict) with ⟨m, st⟩
  by_cases hm : m = 1 <;>
    cases hf : find_one st id <;>
    simp [hu, hm, hf]

/-! ## Claim theorems -/

/-- C7: `list_students` returns at most 1000 documents; it returns the empty
sequence on an empty store, returns all documents when at most 1000 exist,
and in general returns exactly the first 1000 documents of the store, so any
document beyond the 1000th is silently omitted without an error. -/
theorem list_students_cap (store : List StudentDoc) :
    (list_students store).length ≤ 1000
    ∧ list_students ([] : List StudentDoc) = []
    ∧ (store.length ≤ 1000 → list_students store = store)
    ∧ list_students store = store.take 1000 := by
  refine ⟨?_, rfl, ?_, rfl⟩
  · rw [list_students, List.length_take]
    exact Nat.min_le_left _ _
  · intro h
    rw [list_students, List.take_of_length_le h]

/-- C7 witness: the cap theorem evaluated on a one-document store. -/
theorem list_students_cap_witness :
    (list_students [⟨"a", "n", "e", "c", 3⟩]).length ≤ 1000
    ∧ list_students ([] : List StudentDoc) = []
    ∧ list_students [⟨"a", "n", "e", "c", 3⟩] = [⟨"a", "n", "e", "c", 3⟩] := by
  obtain ⟨h1, h2, h3, _⟩ := list_students_cap [⟨"a", "n", "e", "c", 3⟩]
  exact ⟨h1, h2, h3 (by decide)⟩

/-- C6: `show_student` looks the raw path string up directly: it fails with
404 `"Student {id} not found"` exactly when no stored document's `_id`
equals the supplied string, and on success the returned document is a stored
document whose `_id` is literally the supplied string. -/
theorem show_student_spec (store : List StudentDoc) (id : String) :
    (show_student store id = Except.error ⟨404, notFoundMsg id⟩ ↔
      find_one store id = none)
    ∧ (∀ d, show_student store id = Except.ok d → d ∈ store ∧ d.id = id) := by
  constructor
  · cases h : find_one store id with
    | none => simp [show_student, h]
    | some d => simp [show_student, h]
  · intro d hd
    cases h : find_one store id with
    | none =>
      rw [show_student, h] at hd
      cases hd
    | some d' =>
      rw [show_student, h] at hd
      injection hd with hd
      subst hd
      exact find_one_mem h

/-- C6 witness: the lookup theorem evaluated on a one-document store. -/
theorem show_student_spec_witness :
    (⟨"a", "n", "e", "c", 3⟩ : StudentDoc) ∈
        [(⟨"a", "n", "e", "c", 3⟩ : StudentDoc)]
    ∧ (⟨"a", "n", "e", "c", 3⟩ : StudentDoc).id = "a" :=
  (show_student_spec [⟨"a", "n", "e", "c", 3⟩] "a").2 ⟨"a", "n", "e", "c", 3⟩ (by rfl)

/-- C5: `delete_student` answers 404 `"Student {id} not found"` exactly when
the store deleted zero documents for that id (equivalently, when no document
matches), and answers 204 with an empty body when exactly one document was
deleted. -/
theorem delete_student_spec (store : List StudentDoc) (id : String) :
    ((delete_student store id).1 = Except.error ⟨404, notFoundMsg id⟩ ↔
      (delete_one store id).1 = 0)
    ∧ ((delete_one store id).1 = 0 ↔ find_one store id = none)
    ∧ ((delete_one store id).1 = 1 →
        delete_student store id = (Except.ok (204, ""), (delete_one store id).2)) := by
  rcases hd : delete_one store id with ⟨n, st⟩
  have hds : delete_student store id =
      if n = 1 then (Except.ok (204, ""), st)
      else (Except.error ⟨404, notFoundMsg id⟩, st) := by
    unfold delete_student
    rw [hd]
  have hz : (n, st).1 = 0 ↔ find_one store id = none := by
    have h := @delete_one_fst_zero_iff store id
    rw [hd] at h
    exact h
  have hn : n = 0 ∨ n = 1 := by
    have h := @delete_one_fst store id
    rw [hd] at h
    exact h
  rcases hn with rfl | rfl
  · refine ⟨?_, hz, ?_⟩
    · simp [hds]
    · intro hc
      simp at hc
  · refine ⟨?_, hz, ?_⟩
    · simp [hds]
    · intro _
      rw [hds]
      simp

/-- C5 witness: delete on a present id answers 204 with an empty body, and
the NotFound characterization evaluated there. -/
theorem delete_student_spec_witness :
    delete_student [⟨"a", "n", "e", "c", 3⟩] "a" = (Except.ok (204, ""), []) := by
  have h := (delete_student_spec [⟨"a", "n", "e", "c", 3⟩] "a").2.2 (by decide)
  simpa using h

/-- C2: `update_student` answers 404 `"Student {id} not found"` exactly when
no document with that id exists; an all-absent (equivalently all-null) patch
against an existing id performs no write and returns the stored record
unchanged; and whenever the store write modified nothing, the call degrades
into a read returning the existing record. -/
theorem update_student_notFound_iff (store : List StudentDoc) (id : String)
    (patch : UpdateStudentModel) :
    ((update_student store id patch).1 = Except.error ⟨404, notFoundMsg id⟩ ↔
      find_one store id = none)
    ∧ (∀ doc, patch = ⟨none, none, none, none⟩ → find_one store id = some doc →
        update_student store id patch = (Except.ok doc, store))
    ∧ (∀ doc, (update_one store id (filterNonNull patch.dict)).1 = 0 →
        find_one store id = some doc →
        (update_student store id patch).1 = Except.ok doc) := by
  refine ⟨?_, ?_, ?_⟩
  · by_cases hlen : (filterNonNull patch.dict).length ≥ 1
    · cases hfo : find_one store id with
      | none =>
        have h0 := update_one_of_none (filterNonNull patch.dict) hfo
        rw [update_student_eq, if_pos hlen, h0]
        simp [hfo]
      | some doc =>
        have hf := update_one_find_some (filterNonNull patch.dict) hfo
        rw [update_student_eq, if_pos hlen, hf]
        simp
    · rw [update_student_eq, if_neg hlen]
      cases hfo : find_one store id <;> simp
  · intro doc hp hfo
    subst hp
    rw [update_student_eq, if_neg (by decide), hfo]
  · intro doc h0 hfo
    have h2 := update_one_snd_of_zero h0
    by_cases hlen : (filterNonNull patch.dict).length ≥ 1
    · rw [update_student_eq, if_pos hlen, h2, hfo]
    · rw [update_student_eq, if_neg hlen, hfo]

/-- C2 witness: the characterization evaluated with an all-absent patch
against a one-document store. -/
theorem update_student_notFound_iff_witness :
    update_student [⟨"a", "n", "e", "c", 3⟩] "a" ⟨none, none, none, none⟩ =
      (Except.ok ⟨"a", "n", "e", "c", 3⟩, [⟨"a", "n", "e", "c", 3⟩]) :=
  (update_student_notFound_iff [⟨"a", "n", "e", "c", 3⟩] "a"
    ⟨none, none, none, none⟩).2.1 ⟨"a", "n", "e", "c", 3⟩ rfl (by rfl)

/-- C9: a patch containing only `gpa` leaves `name`, `email`, `course` and
`id` unchanged — the returned and the stored record are the old record with
only `gpa` replaced — and, in general, no patch ever modifies the `id` of a
document. -/
theorem update_gpa_frame (store : List StudentDoc) (id : String) (g : ℚ)
    (doc : StudentDoc) (hfo : find_one store id = some doc) :
    (update_student store id ⟨none, none, none, some g⟩).1 =
        Except.ok { doc with gpa := g }
    ∧ find_one (update_student store id ⟨none, none, none, some g⟩).2 id =
        some { doc with gpa := g }
    ∧ (∀ p : UpdateStudentModel, ∀ d : StudentDoc, (applyPatch d p).id = d.id) := by
  have hset : filterNonNull (UpdateStudentModel.dict ⟨none, none, none, some g⟩) =
      [("gpa", FieldVal.num g)] := rfl
  have happ : applySet doc [("gpa", FieldVal.num g)] = { doc with gpa := g } := rfl
  have hf := update_one_find_some
    (filterNonNull (UpdateStudentModel.dict ⟨none, none, none, some g⟩)) hfo
  rw [hset, happ] at hf
  rw [update_student_eq, hset,
    if_pos (by simp :
      ([("gpa", FieldVal.num g)] : List (String × FieldVal)).length ≥ 1),
    hf]
  exact ⟨rfl, hf, fun p d => applyPatch_id d p⟩

/-- C9 witness: the frame theorem evaluated on a one-document store with a
gpa-only patch. -/
theorem update_gpa_frame_witness :
    (update_student [⟨"a", "n", "e", "c", 3⟩] "a" ⟨none, none, none, some 2⟩).1 =
        Except.ok ⟨"a", "n", "e", "c", 2⟩
    ∧ find_one
        (update_student [⟨"a", "n", "e", "c", 3⟩] "a" ⟨none, none, none, some 2⟩).2
        "a" = some ⟨"a", "n", "e", "c", 2⟩ := by
  have h := update_gpa_frame [⟨"a", "n", "e", "c", 3⟩] "a" 2
    ⟨"a", "n", "e", "c", 3⟩ (by rfl)
  exact ⟨h.1, h.2.1⟩

/-- C4: the `$set` document built by `update_student` contains exactly the
patch fields carrying a value: a field that is absent and a field sent as
null are both `none` after pydantic parsing and leave the stored field
unchanged, and only valued fields appear as assignments (never the id). -/
theorem update_set_exactly_nonnull (p : UpdateStudentModel) (doc : StudentDoc) :
    ((applyPatch doc p).id = doc.id
      ∧ (applyPatch doc p).name = p.name.getD doc.name
      ∧ (applyPatch doc p).email = p.email.getD doc.email
      ∧ (applyPatch doc p).course = p.course.getD doc.course
      ∧ (applyPatch doc p).gpa = p.gpa.getD doc.gpa)
    ∧ (∀ kv : String × FieldVal, kv ∈ filterNonNull p.dict ↔
        ((∃ s, p.name = some s ∧ kv = ("name", FieldVal.str s))
        ∨ (∃ s, p.email = some s ∧ kv = ("email", FieldVal.str s))
        ∨ (∃ s, p.course = some s ∧ kv = ("course", FieldVal.str s))
        ∨ (∃ q, p.gpa = some q ∧ kv = ("gpa", FieldVal.num q)))) := by
  rcases p with ⟨n, e, c, g⟩
  rcases n with _ | n <;> rcases e with _ | e <;> rcases c with _ | c <;>
    rcases g with _ | g <;>
    refine ⟨⟨rfl, rfl, rfl, rfl, rfl⟩, fun kv => ?_⟩ <;>
    · simp only [UpdateStudentModel.dict, filterNonNull, List.filterMap,
        Option.map_none, Option.map_some, List.mem_cons, List.mem_singleton,
        List.not_mem_nil, Option.some.injEq]
      constructor
      · intro h
        rcases kv with ⟨k, v⟩
        aesop
      · intro h
        rcases kv with ⟨k, v⟩
        aesop

/-- C3: pydantic validation of a create body accepts every gpa at most 4.0
(including 4.0 itself and any negative value, there being no lower bound)
and rejects every gpa strictly above 4.0 with a validation error, in which
case `post_create` writes nothing to the store. -/
theorem create_gpa_bound (store : List StudentDoc) (genId : String)
    (nm em cr : String) (g : ℚ) (hem : emailValid em = true) :
    (g ≤ 4 →
      parseStudentModel genId ⟨none, some nm, some em, some cr, some g⟩ =
        Except.ok ⟨genId, nm, em, cr, g⟩)
    ∧ (4 < g →
        parseStudentModel genId ⟨none, some nm, some em, some cr, some g⟩ =
          Except.error "ensure this value is less than or equal to 4.0"
        ∧ post_create store genId ⟨none, some nm, some em, some cr, some g⟩ =
          (CreateResult.validationError
            "ensure this value is less than or equal to 4.0", store)) := by
  constructor
  · intro hg
    simp [parseStudentModel, hem, hg]
  · intro hg
    have hng : ¬ g ≤ 4 := not_le.mpr hg
    constructor
    · simp [parseStudentModel, hem, hng]
    · simp [post_create, parseStudentModel, hem, hng]

/-- C3 witness: gpa 4.0 is accepted, gpa 4.1 is rejected without a write,
and a negative gpa is accepted. -/
theorem create_gpa_bound_witness :
    parseStudentModel "507f1f77bcf86cd799439011"
      ⟨none, some "Jane Doe", some "jdoe@example.com", some "Nanophotonics",
       some 4⟩
      = Except.ok ⟨"507f1f77bcf86cd799439011", "Jane Doe", "jdoe@example.com",
          "Nanophotonics", 4⟩
    ∧ post_create [] "507f1f77bcf86cd799439011"
        ⟨none, some "Jane Doe", some "jdoe@example.com", some "Nanophotonics",
         some (41 / 10)⟩
      = (CreateResult.validationError
          "ensure this value is less than or equal to 4.0", [])
    ∧ parseStudentModel "507f1f77bcf86cd799439011"
        ⟨none, some "Jane Doe", some "jdoe@example.com", some "Nanophotonics",
         some (-1)⟩
      = Except.ok ⟨"507f1f77bcf86cd799439011", "Jane Doe", "jdoe@example.com",
          "Nanophotonics", -1⟩ := by
  refine ⟨?_, ?_, ?_⟩
  · exact (create_gpa_bound [] "507f1f77bcf86cd799439011" "Jane Doe"
      "jdoe@example.com" "Nanophotonics" 4 (by decide)).1 (by norm_num)
  · exact ((create_gpa_bound [] "507f1f77bcf86cd799439011" "Jane Doe"
      "jdoe@example.com" "Nanophotonics" (41 / 10) (by decide)).2
      (by norm_num)).2
  · exact (create_gpa_bound [] "507f1f77bcf86cd799439011" "Jane Doe"
      "jdoe@example.com" "Nanophotonics" (-1) (by decide)).1 (by norm_num)

/-- C10: the gpa upper bound is enforced only at create: a patch with
gpa 5.0 passes `UpdateStudentModel` validation, and `update_student` applied
to a store whose every record has gpa at most 4.0 succeeds and leaves a
stored record with gpa above 4.0. -/
theorem update_gpa_unbounded :
    parseUpdateStudentModel ⟨none, none, none, some 5⟩ =
        Except.ok ⟨none, none, none, some 5⟩
    ∧ (∀ d ∈ [(⟨"id1", "n", "e", "c", 3⟩ : StudentDoc)], d.gpa ≤ 4)
    ∧ update_student [⟨"id1", "n", "e", "c", 3⟩] "id1" ⟨none, none, none, some 5⟩
      = (Except.ok ⟨"id1", "n", "e", "c", 5⟩, [⟨"id1", "n", "e", "c", 5⟩])
    ∧ ¬ ((5 : ℚ) ≤ 4) := by
  refine ⟨rfl, ?_, by rfl, by norm_num⟩
  intro d hd
  rw [List.mem_singleton] at hd
  subst hd
  norm_num

/-- C1: for a schema-valid create body (the four fields present, nothing
else), `post_create` answers 201 with a Student whose non-id fields equal
the input and whose id is non-empty, and `show_student` on that id returns
the very same Student.  `genId` is the `ObjectId` produced by the model's
default factory, assumed well-formed and not yet present in the store. -/
theorem create_getById_roundtrip (store : List StudentDoc) (genId : String)
    (nm em cr : String) (g : ℚ)
    (hem : emailValid em = true) (hg : g ≤ 4)
    (hgen : objectIdValid genId = true)
    (hfresh : find_one store genId = none) :
    ∃ created store',
      post_create store genId ⟨none, some nm, some em, some cr, some g⟩ =
          (CreateResult.created (some created), store')
      ∧ created.name = nm ∧ created.email = em ∧ created.course = cr
      ∧ created.gpa = g ∧ created.id ≠ ""
      ∧ show_student store' created.id = Except.ok created := by
  have hfind : find_one (store ++ [⟨genId, nm, em, cr, g⟩]) genId =
      some ⟨genId, nm, em, cr, g⟩ := by
    rw [find_one_append_of_none _ hfresh]
    simp [find_one]
  refine ⟨⟨genId, nm, em, cr, g⟩, store ++ [⟨genId, nm, em, cr, g⟩],
    ?_, rfl, rfl, rfl, rfl, ?_, ?_⟩
  · have hp : parseStudentModel genId ⟨none, some nm, some em, some cr, some g⟩ =
        Except.ok ⟨genId, nm, em, cr, g⟩ := by
      simp [parseStudentModel, hem, hg]
    have hins : insert_one store ⟨genId, nm, em, cr, g⟩ =
        Except.ok (genId, store ++ [⟨genId, nm, em, cr, g⟩]) := by
      simp [insert_one, hfresh]
    simp [post_create, hp, create_student, hins, hfind]
  · intro h
    have hid : genId = "" := h
    rw [hid] at hgen
    exact absurd hgen (by decide)
  · simp [show_student, hfind]

/-- C1 witness: the round trip evaluated on an empty store and a concrete
valid body. -/
theorem create_getById_roundtrip_witness :
    ∃ created store',
      post_create [] "507f1f77bcf86cd799439011"
          ⟨none, some "Jane Doe", some "jdoe@example.com",
           some "Nanophotonics", some 3⟩ =
          (CreateResult.created (some created), store')
      ∧ created.name = "Jane Doe" ∧ created.email = "jdoe@example.com"
      ∧ created.course = "Nanophotonics"
      ∧ created.gpa = 3 ∧ created.id ≠ ""
      ∧ show_student store' created.id = Except.ok created :=
  create_getById_roundtrip [] "507f1f77bcf86cd799439011" "Jane Doe"
    "jdoe@example.com" "Nanophotonics" 3 (by decide) (by norm_num)
    (by decide) rfl

/-- C8: the code accepts a client-supplied identifier on create, contrary to
the invariant stated by the spec and by the comment on `StudentModel.id`:
a body carrying `_id` as a valid `ObjectId` string is validated by
`PyObjectId.validate`, so the created and persisted document carries the
client's identifier rather than the service-generated one. -/
theorem create_uses_client_supplied_id :
    post_create [] "e6f7a8b9c0d1e2f3a4b5c6d7"
      ⟨some "507f1f77bcf86cd799439011", some "Jane Doe",
       some "jdoe@example.com", some "Nanophotonics", some 3⟩
      = (CreateResult.created (some ⟨"507f1f77bcf86cd799439011", "Jane Doe",
            "jdoe@example.com", "Nanophotonics", 3⟩),
         [⟨"507f1f77bcf86cd799439011", "Jane Doe", "jdoe@example.com",
           "Nanophotonics", 3⟩])
    ∧ "507f1f77bcf86cd799439011" ≠ "e6f7a8b9c0d1e2f3a4b5c6d7" := by
  constructor
  · decide
  · decide
